import Mathlib

/-
Verification of the process-execution and output-streaming subsystem of
src/src/xjfx.py against its design specification.

Modelling conventions:
- A byte string is a List Nat (each element one byte value).
- Python exceptions are modelled with Except: fallible operations return
  Except PyErr.
- The logging side channel is modelled as a list of LogEvent values
  returned alongside the result; the colour escape codes and printf-style
  format strings of _fmt_proc_cmd / _fmt_proc_output are presentation
  constants that the spec places outside the core, so a log event records
  the semantically relevant payload: the stream classifier and the
  stripped line text for line events, the command vector and return code
  for error events.
- A decoded text value is represented by its underlying byte sequence;
  UTF-8 decoding is injective on valid input, so emptiness and equality
  of the decoded view coincide with emptiness and equality of the bytes.
-/

/-- Exceptions that the modelled Python code can raise. -/
inductive PyErr
  | spawnError
  | brokenPipeError
  | typeError
  | unicodeDecodeError
  | unboundLocalError
  | attributeError
  | indexError
deriving DecidableEq

/-- ProcStreamClassifier from xjfx.py lines 31-41: OUTPUT is combined
stdout/stderr, STDOUT standard output, STDERR standard error. -/
inductive ProcStreamClassifier
  | OUTPUT
  | STDOUT
  | STDERR
deriving DecidableEq

/-- subprocess.PIPE, re-exported by xjfx (line 27). -/
def PIPE : Int := -1

/-- subprocess.STDOUT, re-exported by xjfx (line 26). -/
def STDOUT : Int := -2

/-- subprocess.DEVNULL, re-exported by xjfx (line 25). -/
def DEVNULL : Int := -3

/-- Python truthiness of an int-or-None value: None and 0 are falsy,
every other int is truthy. Used for the `if stdout:` and `if stderr:`
tests in exec_cmd (lines 195 and 199). -/
def pyTruthy : Option Int → Bool
  | none => false
  | some n => n != 0

/-- Whitespace bytes stripped by Python str.strip() for ASCII text:
space, tab, newline, carriage return, vertical tab, form feed. -/
def isSpaceByte (b : Nat) : Bool :=
  b == 32 || b == 9 || b == 10 || b == 13 || b == 11 || b == 12

/-- Python str.strip(): removes whitespace from BOTH ends of the string
(used at xjfx.py line 116 on the logged line). -/
def pyStrip (l : List Nat) : List Nat :=
  ((l.dropWhile isSpaceByte).reverse.dropWhile isSpaceByte).reverse

/-- Modelled from the spec: strip trailing whitespace only (spec section
4.1 requires only the trailing end to be stripped for the logged
representation). Compared against pyStrip, which the source uses. -/
def stripTrailingOnly (l : List Nat) : List Nat :=
  (l.reverse.dropWhile isSpaceByte).reverse

/-- Iterating a binary file object in Python yields lines: each chunk
ends at and includes a newline byte (0x0A); a final unterminated
fragment is yielded as-is. This models `for raw_line in stream` at
xjfx.py line 126. -/
def splitLines : List Nat → List (List Nat)
  | [] => []
  | b :: bs =>
    if b = 10 then [10] :: splitLines bs
    else
      match splitLines bs with
      | [] => [[b]]
      | l :: ls => (b :: l) :: ls

/-- A UTF-8 continuation byte (0x80..0xBF). -/
def utf8Cont (b : Nat) : Bool :=
  0x80 ≤ b && b ≤ 0xBF

/-- Strict UTF-8 validity, as checked by Python bytes.decode() with the
default codec: rejects stray continuation bytes, overlong forms,
surrogates, and code points above U+10FFFF. -/
def utf8Valid : List Nat → Bool
  | [] => true
  | b :: bs =>
    if b ≤ 0x7F then utf8Valid bs
    else if 0xC2 ≤ b && b ≤ 0xDF then
      match bs with
      | c1 :: bs2 => utf8Cont c1 && utf8Valid bs2
      | [] => false
    else if b = 0xE0 then
      match bs with
      | c1 :: c2 :: bs2 => (0xA0 ≤ c1 && c1 ≤ 0xBF) && utf8Cont c2 && utf8Valid bs2
      | _ => false
    else if (0xE1 ≤ b && b ≤ 0xEC) || b = 0xEE || b = 0xEF then
      match bs with
      | c1 :: c2 :: bs2 => utf8Cont c1 && utf8Cont c2 && utf8Valid bs2
      | _ => false
    else if b = 0xED then
      match bs with
      | c1 :: c2 :: bs2 => (0x80 ≤ c1 && c1 ≤ 0x9F) && utf8Cont c2 && utf8Valid bs2
      | _ => false
    else if b = 0xF0 then
      match bs with
      | c1 :: c2 :: c3 :: bs2 => (0x90 ≤ c1 && c1 ≤ 0xBF) && utf8Cont c2 && utf8Cont c3 && utf8Valid bs2
      | _ => false
    else if 0xF1 ≤ b && b ≤ 0xF3 then
      match bs with
      | c1 :: c2 :: c3 :: bs2 => utf8Cont c1 && utf8Cont c2 && utf8Cont c3 && utf8Valid bs2
      | _ => false
    else if b = 0xF4 then
      match bs with
      | c1 :: c2 :: c3 :: bs2 => (0x80 ≤ c1 && c1 ≤ 0x8F) && utf8Cont c2 && utf8Cont c3 && utf8Valid bs2
      | _ => false
    else false

/-- Log events emitted through the LOGGER side channel. -/
inductive LogEvent
  | execCmd (args : List String)
  | outputLine (stream_class : ProcStreamClassifier) (line : List Nat)
  | retcodeError (args : List String) (retcode : Int)
  | stdoutDump (payload : List Nat)
  | stderrDump (payload : List Nat)
deriving DecidableEq

/-- Numeric logging level of each event, matching the logging module:
LOGGER.debug emits at 10, LOGGER.error at 40. -/
def LogEvent.level : LogEvent → Nat
  | LogEvent.execCmd _ => 10
  | LogEvent.outputLine _ _ => 10
  | LogEvent.retcodeError _ _ => 40
  | LogEvent.stdoutDump _ => 40
  | LogEvent.stderrDump _ => 40

/-- Semantic content of _fmt_proc_output (xjfx.py lines 99-118): the
logged record carries the classifier name and the line with whitespace
stripped from both ends by line.strip(); the colour codes chosen by the
if/if/elif chain and the surrounding format string are presentation
constants outside the modelled core. -/
def _fmt_proc_output (stream_class : ProcStreamClassifier) (line : List Nat) :
    ProcStreamClassifier × List Nat :=
  (stream_class, pyStrip line)

/-- The debug event LOGGER.debug(*_fmt_proc_output(...)) emitted for one
drained line (xjfx.py line 127). -/
def loggedEvent (stream_class : ProcStreamClassifier) (line : List Nat) : LogEvent :=
  LogEvent.outputLine (_fmt_proc_output stream_class line).1 (_fmt_proc_output stream_class line).2

/-- Loop body of _iterate_proc_output over the already-split lines
(xjfx.py lines 125-129): per line, raw_line.decode() is evaluated first
(raising UnicodeDecodeError on invalid UTF-8), the formatted record is
logged at debug level, and the raw bytes are appended verbatim to the
accumulator. -/
def drainLines : List (List Nat) → ProcStreamClassifier → Except PyErr (List LogEvent × List Nat)
  | [], _ => Except.ok ([], [])
  | l :: ls, stream_class =>
    if utf8Valid l then
      match drainLines ls stream_class with
      | Except.ok (evs, acc) => Except.ok (loggedEvent stream_class l :: evs, l ++ acc)
      | Except.error e => Except.error e
    else Except.error PyErr.unicodeDecodeError

/-- _iterate_proc_output (xjfx.py lines 121-129). The stream argument is
the pipe object handed over by exec_cmd: Popen materialises a readable
stream object only for the PIPE policy, otherwise the corresponding
attribute is None, and `for raw_line in None` raises TypeError. -/
def _iterate_proc_output (stream : Option (List Nat)) (stream_class : ProcStreamClassifier) :
    Except PyErr (List LogEvent × List Nat) :=
  match stream with
  | none => Except.error PyErr.typeError
  | some bs => drainLines (splitLines bs) stream_class

/-- _iterate_proc_output_async (xjfx.py lines 132-140). The source line
`accumulated_output: b''` is a bare type hint, not an assignment, so the
name is a local variable that is never bound: the first
`accumulated_output += raw_line` in the loop (after raw_line.decode(),
which can raise UnicodeDecodeError first), or the final
`return accumulated_output` on an empty stream, raises
UnboundLocalError. The function can therefore never return a buffer. -/
def _iterate_proc_output_async (stream : Option (List Nat)) (stream_class : ProcStreamClassifier) :
    Except PyErr (List LogEvent × List Nat) :=
  match stream with
  | none => Except.error PyErr.typeError
  | some bs =>
    match splitLines bs with
    | [] => Except.error PyErr.unboundLocalError
    | l :: _ =>
      if utf8Valid l then Except.error PyErr.unboundLocalError
      else Except.error PyErr.unicodeDecodeError

/-- ProcData (xjfx.py lines 44-84): accumulated raw output buffers, the
decode flag fixed at construction, and the return code, initialised to
zero by ProcData.__init__. -/
structure ProcData where
  decode_output : Bool
  _stdout : List Nat
  _stderr : List Nat
  retcode : Int
deriving DecidableEq

/-- ProcData.__init__ (xjfx.py lines 49-56). -/
def ProcData.init (decode_output : Bool) : ProcData :=
  { decode_output := decode_output, _stdout := [], _stderr := [], retcode := 0 }

/-- The stdout property (xjfx.py lines 58-63): returns the decoded text
when decode_output is set, raising UnicodeDecodeError on invalid bytes,
else the raw bytes. The decoded view is represented by its bytes. -/
def ProcData.stdout (pd : ProcData) : Except PyErr (List Nat) :=
  if pd.decode_output then
    if utf8Valid pd._stdout then Except.ok pd._stdout else Except.error PyErr.unicodeDecodeError
  else Except.ok pd._stdout

/-- The stderr property (xjfx.py lines 72-77), same shape as stdout. -/
def ProcData.stderr (pd : ProcData) : Except PyErr (List Nat) :=
  if pd.decode_output then
    if utf8Valid pd._stderr then Except.ok pd._stderr else Except.error PyErr.unicodeDecodeError
  else Except.ok pd._stderr

/-- _display_proc_result (xjfx.py lines 143-154). lvl is the ambient
LOGGER.getEffectiveLevel(); logging.DEBUG is 10. When reporting is not
suppressed and the return code is non-zero it logs one error event
naming the shlex-joined command and the return code; then, when the
effective level is coarser than DEBUG, it evaluates the stdout property
(possible UnicodeDecodeError) and logs it when truthy, then does the
same for stderr. -/
def _display_proc_result (args : List String) (ignore_retcode : Bool) (proc_data : ProcData)
    (lvl : Nat) : Except PyErr (List LogEvent) :=
  if ignore_retcode = false ∧ proc_data.retcode ≠ 0 then
    if 10 < lvl then
      match proc_data.stdout with
      | Except.error e => Except.error e
      | Except.ok so =>
        match proc_data.stderr with
        | Except.error e => Except.error e
        | Except.ok se =>
          Except.ok ([LogEvent.retcodeError args proc_data.retcode] ++
            (if so.isEmpty then [] else [LogEvent.stdoutDump so]) ++
            (if se.isEmpty then [] else [LogEvent.stderrDump se]))
    else Except.ok [LogEvent.retcodeError args proc_data.retcode]
  else Except.ok []

/-- Abstraction of one child process run: whether Popen succeeds, whether
writing the supplied input to its stdin succeeds, the bytes it delivers
on the stdout pipe (already including the interleaved stderr bytes when
the caller merged stderr into stdout), the bytes it delivers on the
stderr pipe, and its exit status. -/
structure ChildBehavior where
  spawnOk : Bool
  stdinOk : Bool
  stdoutBytes : List Nat
  stderrBytes : List Nat
  exitcode : Int
deriving DecidableEq

/-- Popen wires a readable stream object onto the proc handle only for
the PIPE policy; for None, DEVNULL, STDOUT redirection or any plain file
descriptor the corresponding attribute on the handle is None. -/
def popenStream (policy : Option Int) (delivered : List Nat) : Option (List Nat) :=
  if policy = some PIPE then some delivered else none

/-- The `if stdout:` drain stage of exec_cmd (xjfx.py lines 195-198):
when the stdout argument is truthy, iterate the pipe object Popen put on
the handle (None unless the policy was PIPE), with classifier OUTPUT
when stderr was merged via STDOUT and STDOUT otherwise, and store the
accumulated bytes through the ProcData stdout setter. -/
def execDrainStdout (stdout stderr : Option Int) (decode_output : Bool) (child : ChildBehavior) :
    Except PyErr (List LogEvent × ProcData) :=
  let pd0 : ProcData := ProcData.init decode_output
  if pyTruthy stdout then
    match _iterate_proc_output (popenStream stdout child.stdoutBytes)
        (if stderr = some STDOUT then ProcStreamClassifier.OUTPUT
         else ProcStreamClassifier.STDOUT) with
    | Except.error e => Except.error e
    | Except.ok (evs, acc) => Except.ok (evs, { pd0 with _stdout := acc })
  else Except.ok ([], pd0)

/-- The `if stderr and stderr != STDOUT:` drain stage of exec_cmd
(xjfx.py lines 199-200), run after the stdout drain has fully
completed. -/
def execDrainStderr (stderr : Option Int) (child : ChildBehavior) (pd1 : ProcData) :
    Except PyErr (List LogEvent × ProcData) :=
  if pyTruthy stderr ∧ stderr ≠ some STDOUT then
    match _iterate_proc_output (popenStream stderr child.stderrBytes)
        ProcStreamClassifier.STDERR with
    | Except.error e => Except.error e
    | Except.ok (evs, acc) => Except.ok (evs, { pd1 with _stderr := acc })
  else Except.ok ([], pd1)

/-- exec_cmd (xjfx.py lines 157-204), the blocking launcher. Steps in
source order: the debug preamble event, ProcData construction, Popen
(spawn failure raises), optional stdin write and flush (failure raises),
then the stdout drain stage runs to completion, then the stderr drain
stage, the with-block reaps the child, retcode is set from
proc_desc.returncode, and _display_proc_result runs before returning.
The two drain stages run one after the other on the calling thread. -/
def exec_cmd (args : List String) (input : Option (List Nat)) (stdout stderr : Option Int)
    (ignore_retcode : Bool) (decode_output : Bool) (child : ChildBehavior) (lvl : Nat) :
    Except PyErr (List LogEvent × ProcData) :=
  if child.spawnOk = false then Except.error PyErr.spawnError
  else if input.isSome ∧ child.stdinOk = false then Except.error PyErr.brokenPipeError
  else
    match execDrainStdout stdout stderr decode_output child with
    | Except.error e => Except.error e
    | Except.ok (evs1, pd1) =>
      match execDrainStderr stderr child pd1 with
      | Except.error e => Except.error e
      | Except.ok (evs2, pd2) =>
        let pd3 : ProcData := { pd2 with retcode := child.exitcode }
        match _display_proc_result args ignore_retcode pd3 lvl with
        | Except.error e => Except.error e
        | Except.ok evs3 => Except.ok ([LogEvent.execCmd args] ++ evs1 ++ evs2 ++ evs3, pd3)

/-- exec_cmd_async (xjfx.py lines 207-246). The source assigns
`proc_desc = asyncio.create_subprocess_exec(...)` without awaiting it,
so proc_desc is a coroutine object, never a Process: args[0] on an empty
vector raises IndexError while building the call, and every later
attribute access on proc_desc (stdin, stdout, stderr, returncode)
raises AttributeError. Every path through the function therefore raises
before a ProcData can be returned. -/
def exec_cmd_async (args : List String) (input : Option (List Nat)) (stdout stderr : Option Int)
    (ignore_retcode : Bool) (decode_output : Bool) (child : ChildBehavior) (lvl : Nat) :
    Except PyErr (List LogEvent × ProcData) :=
  if args = [] then Except.error PyErr.indexError
  else if input.isSome then Except.error PyErr.attributeError
  else if pyTruthy stdout then Except.error PyErr.attributeError
  else if pyTruthy stderr ∧ stderr ≠ some STDOUT then Except.error PyErr.attributeError
  else Except.error PyErr.attributeError

/-- Which stream a single one-byte child write targets, for the
pipe-level scheduling model of the blocking launcher. -/
inductive StreamTag
  | out
  | err
deriving DecidableEq

/-- Joint state of the child process and the exec_cmd caller in the
pipe-level model: the child writes one byte at a time into bounded
kernel pipe buffers (capacity cap) and closes both streams when done;
the caller follows the source order of exec_cmd lines 195-200, reading
the stdout pipe to end-of-stream first (drainingErr = false) and only
then reading the stderr pipe (drainingErr = true). -/
structure SimState where
  writes : List StreamTag
  childClosed : Bool
  outBuf : Nat
  errBuf : Nat
  drainingErr : Bool
  finished : Bool
  cap : Nat
deriving DecidableEq

/-- One child step, when possible: perform the next one-byte write if
that pipe has room (a write into a full pipe blocks), or close both
streams once all writes are done. -/
def childStep? (s : SimState) : Option SimState :=
  match s.writes with
  | StreamTag.out :: rest =>
    if s.outBuf < s.cap then some { s with writes := rest, outBuf := s.outBuf + 1 } else none
  | StreamTag.err :: rest =>
    if s.errBuf < s.cap then some { s with writes := rest, errBuf := s.errBuf + 1 } else none
  | [] => if s.childClosed then none else some { s with childClosed := true }

/-- One caller step, when possible, per the sequential drain order of
exec_cmd: while draining stdout, consume a buffered byte, or observe
end-of-stream (buffer empty and child closed) and move on to stderr;
a read on an empty pipe whose writer has not closed blocks. -/
def parentStep? (s : SimState) : Option SimState :=
  if s.finished then none
  else if s.drainingErr = false then
    if 0 < s.outBuf then some { s with outBuf := s.outBuf - 1 }
    else if s.childClosed then some { s with drainingErr := true }
    else none
  else
    if 0 < s.errBuf then some { s with errBuf := s.errBuf - 1 }
    else if s.childClosed then some { s with finished := true }
    else none

/-- Scheduler: take any enabled step (child first, then caller); when
neither side can move the state is left unchanged. -/
def simStep (s : SimState) : SimState :=
  match childStep? s with
  | some t => t
  | none =>
    match parentStep? s with
    | some t => t
    | none => s

/-- Deadlock: neither the child nor the caller can take a step, yet the
caller has not finished draining. -/
def deadlocked (s : SimState) : Bool :=
  (childStep? s).isNone && (parentStep? s).isNone && !s.finished

/-- A child that writes three bytes to stdout and three bytes to stderr,
interleaved, against pipe buffers holding two bytes: more than a pipe
buffer of data on each stream, as in the regression scenario of the
spec. -/
def c1Init : SimState :=
  { writes := [StreamTag.out, StreamTag.err, StreamTag.out, StreamTag.err,
               StreamTag.out, StreamTag.err],
    childClosed := false, outBuf := 0, errBuf := 0,
    drainingErr := false, finished := false, cap := 2 }

/-- Sequential-drain invariant of the model: the caller only ever reads
the stderr pipe after the child has closed its streams (all writes done)
and the stdout pipe is fully drained; once closed, no writes remain. -/
def simSequentialInv (s : SimState) : Bool :=
  (!s.drainingErr || (s.childClosed && s.writes.isEmpty && (s.outBuf == 0))) &&
  (!s.childClosed || s.writes.isEmpty)

/-- Return code recorded in a launcher result, when one was returned. -/
def retcodeOf (r : Except PyErr (List LogEvent × ProcData)) : Option Int :=
  match r with
  | Except.ok (_, pd) => some pd.retcode
  | Except.error _ => none

/-- Accumulated buffer of a drain result, when one was returned. -/
def accumOf (r : Except PyErr (List LogEvent × List Nat)) : Option (List Nat) :=
  match r with
  | Except.ok (_, acc) => some acc
  | Except.error _ => none

/-- Holds of a log event unless it is a line event with a classifier
other than OUTPUT (Combined). -/
def classifierIsOutputOk : LogEvent → Bool
  | LogEvent.outputLine stream_class _ =>
    match stream_class with
    | ProcStreamClassifier.OUTPUT => true
    | _ => false
  | _ => true

/-- Recognises the error event naming the given command and return
code. -/
def isRetcodeErrorFor (args : List String) (retc : Int) : LogEvent → Bool
  | LogEvent.retcodeError a r => a == args && r == retc
  | _ => false

/-- Recognises an aggregated-stdout error event with the given
payload. -/
def isStdoutDumpOf (payload : List Nat) : LogEvent → Bool
  | LogEvent.stdoutDump p => p == payload
  | _ => false

/-- Recognises an aggregated-stderr error event with the given
payload. -/
def isStderrDumpOf (payload : List Nat) : LogEvent → Bool
  | LogEvent.stderrDump p => p == payload
  | _ => false

/-- Recognises any aggregated-buffer error event. -/
def isDumpEvent : LogEvent → Bool
  | LogEvent.stdoutDump _ => true
  | LogEvent.stderrDump _ => true
  | _ => false

/-- Hypothesis shape for all-lines-decodable streams. -/
def linesValid (bs : List Nat) : Bool :=
  (splitLines bs).all utf8Valid

/-- A child that spawns, accepts input, writes nothing and exits 0. -/
def trueChild : ChildBehavior :=
  { spawnOk := true, stdinOk := true, stdoutBytes := [], stderrBytes := [], exitcode := 0 }

/-- A child that spawns, accepts input, writes nothing and exits 7. -/
def exit7Child : ChildBehavior :=
  { spawnOk := true, stdinOk := true, stdoutBytes := [], stderrBytes := [], exitcode := 7 }

deriving instance DecidableEq for Except

/-- Claim shape for merged-stderr launches: whenever a ProcData is
returned, its stderr buffer is empty and no drained line was logged with
a classifier other than OUTPUT (Combined). -/
def mergedModeOk : Except PyErr (List LogEvent × ProcData) → Bool
  | Except.error _ => true
  | Except.ok (evs, pd) => pd._stderr.isEmpty && evs.all classifierIsOutputOk

/-- Claim shape for the no-error-or-exactly-one-command-error behaviour
of the reporter: when reporting is suppressed or the exit was zero, no
error-level event at all is emitted; otherwise exactly one event names
the command and the exit status. -/
def c8Holds (args : List String) (ignore_retcode : Bool) (pd : ProcData) (lvl : Nat) : Bool :=
  match _display_proc_result args ignore_retcode pd lvl with
  | Except.error _ => false
  | Except.ok evs =>
    if ignore_retcode = true ∨ pd.retcode = 0 then
      (evs.countP (fun e => e.level == 40)) == 0
    else (evs.countP (isRetcodeErrorFor args pd.retcode)) == 1

/-- Claim shape for the aggregated-output behaviour of the reporter in
the non-suppressed, non-zero-exit case: coarser than DEBUG, each
non-empty buffer is dumped exactly once (an empty buffer is not
dumped); at DEBUG or finer, no buffer is dumped. -/
def c9Holds (args : List String) (pd : ProcData) (lvl : Nat) : Bool :=
  match _display_proc_result args false pd lvl with
  | Except.error _ => false
  | Except.ok evs =>
    if 10 < lvl then
      ((evs.countP (isStdoutDumpOf pd._stdout)) == (if pd._stdout.isEmpty then 0 else 1)) &&
      ((evs.countP (isStderrDumpOf pd._stderr)) == (if pd._stderr.isEmpty then 0 else 1))
    else (evs.countP isDumpEvent) == 0

/-- Line splitting loses no bytes: concatenating the lines restores the
stream. -/
theorem splitLines_flatten (bs : List Nat) : (splitLines bs).flatten = bs := by
  induction bs with
  | nil => rfl
  | cons b bs ih =>
    by_cases hb : b = 10
    · simp [splitLines, hb, ih]
    · simp only [splitLines, hb, if_false]
      cases h : splitLines bs with
      | nil =>
        rw [h] at ih
        simp at ih
        simp [ih]
      | cons l ls =>
        rw [h] at ih
        simp only [List.flatten_cons, List.cons_append] at ih ⊢
        rw [ih]

/-- The sequential-drain invariant is preserved by every scheduler
step. -/
theorem simSequentialInv_step (s : SimState) (h : simSequentialInv s = true) :
    simSequentialInv (simStep s) = true := by
  obtain ⟨w, cc, ob, eb, de, fin, cap⟩ := s
  cases w with
  | nil =>
    cases cc with
    | false =>
      have hde : de = false := by
        cases de
        · rfl
        · simp [simSequentialInv] at h
      subst hde
      simp [simStep, childStep?, simSequentialInv]
    | true =>
      cases fin with
      | true => simpa [simStep, childStep?, parentStep?] using h
      | false =>
        cases de with
        | false =>
          by_cases hob : 0 < ob
          · simp [simStep, childStep?, parentStep?, hob, simSequentialInv]
          · simp [simStep, childStep?, parentStep?, hob, simSequentialInv]
            omega
        | true =>
          simp [simSequentialInv] at h
          by_cases heb : 0 < eb
          · simp [simStep, childStep?, parentStep?, heb, simSequentialInv, h]
          · simp [simStep, childStep?, parentStep?, heb, simSequentialInv, h]
  | cons t rest =>
    have hcc : cc = false := by
      cases cc
      · rfl
      · simp [simSequentialInv] at h
    subst hcc
    have hde : de = false := by
      cases de
      · rfl
      · simp [simSequentialInv] at h
    subst hde
    cases t with
    | out =>
      by_cases hob : ob < cap
      · simp [simStep, childStep?, simSequentialInv, hob]
      · cases fin with
        | true => simp [simStep, childStep?, parentStep?, simSequentialInv, hob]
        | false =>
          by_cases hob2 : 0 < ob
          · simp [simStep, childStep?, parentStep?, simSequentialInv, hob, hob2]
          · simp [simStep, childStep?, parentStep?, simSequentialInv, hob, hob2]
    | err =>
      by_cases heb : eb < cap
      · simp [simStep, childStep?, simSequentialInv, heb]
      · cases fin with
        | true => simp [simStep, childStep?, parentStep?, simSequentialInv, heb]
        | false =>
          by_cases hob2 : 0 < ob
          · simp [simStep, childStep?, parentStep?, simSequentialInv, heb, hob2]
          · simp [simStep, childStep?, parentStep?, simSequentialInv, heb, hob2]

/-- Draining all-valid lines succeeds, logging each line stripped and
accumulating all bytes verbatim. -/
theorem drainLines_ok (ls : List (List Nat)) (sc : ProcStreamClassifier)
    (h : ls.all utf8Valid = true) :
    drainLines ls sc = Except.ok (ls.map (loggedEvent sc), ls.flatten) := by
  induction ls with
  | nil => rfl
  | cons l ls ih =>
    simp only [List.all_cons, Bool.and_eq_true] at h
    simp [drainLines, h.1, ih h.2]

/-- Inversion: whenever the drain loop returns, the events are exactly
the per-line debug events and the accumulator is the concatenation of
the lines. -/
theorem drainLines_ok_inv (ls : List (List Nat)) (sc : ProcStreamClassifier)
    (evs : List LogEvent) (acc : List Nat)
    (h : drainLines ls sc = Except.ok (evs, acc)) :
    evs = ls.map (loggedEvent sc) ∧ acc = ls.flatten := by
  induction ls generalizing evs acc with
  | nil =>
    simp only [drainLines, Except.ok.injEq, Prod.mk.injEq] at h
    simp [← h.1, ← h.2]
  | cons l ls ih =>
    simp only [drainLines] at h
    split at h
    · cases hd : drainLines ls sc with
      | error e => rw [hd] at h; cases h
      | ok p =>
        obtain ⟨evs2, acc2⟩ := p
        rw [hd] at h
        simp only [Except.ok.injEq, Prod.mk.injEq] at h
        obtain ⟨h1, h2⟩ := ih evs2 acc2 hd
        subst h1 h2
        simp [← h.1, ← h.2]
    · cases h

/-- A drain over a PIPE stream of all-valid lines returns the stream
bytes unchanged together with the per-line debug events. -/
theorem iterate_ok (bs : List Nat) (sc : ProcStreamClassifier)
    (h : (splitLines bs).all utf8Valid = true) :
    _iterate_proc_output (some bs) sc =
      Except.ok ((splitLines bs).map (loggedEvent sc), bs) := by
  show drainLines (splitLines bs) sc = Except.ok ((splitLines bs).map (loggedEvent sc), bs)
  rw [drainLines_ok _ _ h, splitLines_flatten]

/-- When the buffers decode (or decoding is off), the reporter never
raises and its events are fully determined by the suppression flag, the
return code, the effective level and the buffers. -/
theorem display_ok (args : List String) (ig : Bool) (pd : ProcData) (lvl : Nat)
    (hd : pd.decode_output = true → utf8Valid pd._stdout = true ∧ utf8Valid pd._stderr = true) :
    _display_proc_result args ig pd lvl =
      Except.ok (if ig = false ∧ pd.retcode ≠ 0 then
        (if 10 < lvl then
          [LogEvent.retcodeError args pd.retcode] ++
          (if pd._stdout.isEmpty then [] else [LogEvent.stdoutDump pd._stdout]) ++
          (if pd._stderr.isEmpty then [] else [LogEvent.stderrDump pd._stderr])
        else [LogEvent.retcodeError args pd.retcode])
      else []) := by
  have hso : pd.stdout = Except.ok pd._stdout := by
    unfold ProcData.stdout
    cases hdo : pd.decode_output
    · simp
    · simp [(hd hdo).1]
  have hse : pd.stderr = Except.ok pd._stderr := by
    unfold ProcData.stderr
    cases hdo : pd.decode_output
    · simp
    · simp [(hd hdo).2]
  unfold _display_proc_result
  rw [hso, hse]
  split
  · split
    · rfl
    · rfl
  · rfl

/-- No stdout capture requested (inherit): the drain stage is skipped. -/
theorem execDrainStdout_none (stderr : Option Int) (decode_output : Bool) (child : ChildBehavior) :
    execDrainStdout none stderr decode_output child =
      Except.ok ([], ProcData.init decode_output) := rfl

/-- Discarded stdout (DEVNULL): the drain stage still runs, iterates the
None handle, and raises TypeError. -/
theorem execDrainStdout_devnull (stderr : Option Int) (decode_output : Bool)
    (child : ChildBehavior) :
    execDrainStdout (some DEVNULL) stderr decode_output child =
      Except.error PyErr.typeError := rfl

/-- Captured stdout with decodable lines: the drain returns the bytes
delivered on the pipe, verbatim, with one debug event per line. -/
theorem execDrainStdout_pipe (stderr : Option Int) (decode_output : Bool) (child : ChildBehavior)
    (hv : linesValid child.stdoutBytes = true) :
    execDrainStdout (some PIPE) stderr decode_output child =
      Except.ok ((splitLines child.stdoutBytes).map (loggedEvent
          (if stderr = some STDOUT then ProcStreamClassifier.OUTPUT
           else ProcStreamClassifier.STDOUT)),
        { decode_output := decode_output, _stdout := child.stdoutBytes,
          _stderr := [], retcode := 0 }) := by
  have hv2 : (splitLines child.stdoutBytes).all utf8Valid = true := hv
  unfold execDrainStdout
  rw [show popenStream (some PIPE) child.stdoutBytes = some child.stdoutBytes from rfl,
    iterate_ok _ _ hv2]
  rfl

/-- Merged stderr (STDOUT): the stderr drain stage is skipped and the
stderr buffer is left untouched. -/
theorem execDrainStderr_merged (child : ChildBehavior) (pd1 : ProcData) :
    execDrainStderr (some STDOUT) child pd1 = Except.ok ([], pd1) := by
  unfold execDrainStderr
  simp

/-- No stderr capture requested (inherit): the drain stage is skipped. -/
theorem execDrainStderr_none (child : ChildBehavior) (pd1 : ProcData) :
    execDrainStderr none child pd1 = Except.ok ([], pd1) := rfl

/-- Discarded stderr (DEVNULL): the drain stage still runs, iterates the
None handle, and raises TypeError. -/
theorem execDrainStderr_devnull (child : ChildBehavior) (pd1 : ProcData) :
    execDrainStderr (some DEVNULL) child pd1 = Except.error PyErr.typeError := rfl

/-- Captured stderr with decodable lines: the drain returns the bytes
delivered on the pipe, verbatim, with one debug event per line. -/
theorem execDrainStderr_pipe (child : ChildBehavior) (pd1 : ProcData)
    (hv : linesValid child.stderrBytes = true) :
    execDrainStderr (some PIPE) child pd1 =
      Except.ok ((splitLines child.stderrBytes).map (loggedEvent ProcStreamClassifier.STDERR),
        { pd1 with _stderr := child.stderrBytes }) := by
  have hv2 : (splitLines child.stderrBytes).all utf8Valid = true := hv
  have hc : pyTruthy (some PIPE) = true ∧ some PIPE ≠ some STDOUT := by decide
  unfold execDrainStderr
  rw [if_pos hc,
    show popenStream (some PIPE) child.stderrBytes = some child.stderrBytes from rfl,
    iterate_ok _ _ hv2]

/-- Every line event drained in merged (OUTPUT) mode passes the
classifier check. -/
theorem map_loggedEvent_output_all (ls : List (List Nat)) :
    (ls.map (loggedEvent ProcStreamClassifier.OUTPUT)).all classifierIsOutputOk = true := by
  induction ls with
  | nil => rfl
  | cons l ls ih => simp [loggedEvent, _fmt_proc_output, classifierIsOutputOk, ih]

/-- Reporter events are never line events, so they all pass the
classifier check. -/
theorem display_events_classifier (args : List String) (ig : Bool) (pd : ProcData) (lvl : Nat)
    (evs : List LogEvent) (h : _display_proc_result args ig pd lvl = Except.ok evs) :
    evs.all classifierIsOutputOk = true := by
  unfold _display_proc_result at h
  split at h
  · split at h
    · cases hso : pd.stdout with
      | error e => rw [hso] at h; cases h
      | ok so =>
        rw [hso] at h
        cases hse : pd.stderr with
        | error e => rw [hse] at h; cases h
        | ok se =>
          rw [hse] at h
          simp only [Except.ok.injEq] at h
          subst h
          split <;> split <;> simp [classifierIsOutputOk]
    · simp only [Except.ok.injEq] at h
      subst h
      rfl
  · simp only [Except.ok.injEq] at h
    subst h
    rfl

/-- When the stdout buffers decode (or decoding is off) the reporter
returns events rather than raising. -/
theorem display_returns (args : List String) (ig : Bool) (pd : ProcData) (lvl : Nat)
    (h1 : utf8Valid pd._stdout = true) (h2 : utf8Valid pd._stderr = true) :
    ∃ evs3, _display_proc_result args ig pd lvl = Except.ok evs3 :=
  ⟨_, display_ok args ig pd lvl (fun _ => ⟨h1, h2⟩)⟩

/-- In merged mode the stdout drain stage only produces OUTPUT-classified
line events and leaves the stderr buffer empty. -/
theorem execDrainStdout_merged_events (stdout : Option Int) (decode_output : Bool)
    (child : ChildBehavior) (evs : List LogEvent) (pd : ProcData)
    (h : execDrainStdout stdout (some STDOUT) decode_output child = Except.ok (evs, pd)) :
    evs.all classifierIsOutputOk = true ∧ pd._stderr = [] := by
  simp only [execDrainStdout, eq_self_iff_true, if_true] at h
  split at h
  · cases hps : popenStream stdout child.stdoutBytes with
    | none =>
      rw [hps] at h
      simp [_iterate_proc_output] at h
    | some bs =>
      rw [hps] at h
      simp only [_iterate_proc_output] at h
      cases hd : drainLines (splitLines bs) ProcStreamClassifier.OUTPUT with
      | error e => rw [hd] at h; cases h
      | ok p =>
        obtain ⟨evs2, acc⟩ := p
        rw [hd] at h
        simp only [Except.ok.injEq, Prod.mk.injEq] at h
        obtain ⟨he, hp⟩ := h
        obtain ⟨h1, _⟩ := drainLines_ok_inv _ _ _ _ hd
        subst he
        subst h1
        refine ⟨map_loggedEvent_output_all _, ?_⟩
        rw [← hp]
        rfl
  · simp only [Except.ok.injEq, Prod.mk.injEq] at h
    obtain ⟨he, hp⟩ := h
    subst he
    refine ⟨rfl, ?_⟩
    rw [← hp]
    rfl

/-- C3: for every launch with stderr merged into stdout
(stderr = STDOUT), the returned ProcData has an empty stderr buffer and
every drained line is logged with the OUTPUT (Combined) classifier
rather than STDOUT. -/
theorem c3_merged_stderr_empty_and_output_classifier (args : List String)
    (input : Option (List Nat)) (stdout : Option Int) (ignore_retcode decode_output : Bool)
    (child : ChildBehavior) (lvl : Nat) :
    mergedModeOk (exec_cmd args input stdout (some STDOUT) ignore_retcode decode_output child lvl)
      = true := by
  unfold exec_cmd
  split
  · rfl
  · split
    · rfl
    · cases h1 : execDrainStdout stdout (some STDOUT) decode_output child with
      | error e => simp [mergedModeOk]
      | ok p =>
        obtain ⟨evs1, pd1⟩ := p
        obtain ⟨hall, hstderr⟩ := execDrainStdout_merged_events _ _ _ _ _ h1
        dsimp only
        rw [execDrainStderr_merged]
        dsimp only
        cases hd : _display_proc_result args ignore_retcode
            { pd1 with retcode := child.exitcode } lvl with
        | error e => rfl
        | ok evs3 =>
          have h3 := display_events_classifier _ _ _ _ _ hd
          simp [mergedModeOk, hstderr, hall, h3, classifierIsOutputOk, List.all_append]

/-- C2 counterexample: spawning succeeds and no input is written, yet
exec_cmd raises TypeError, because the discarded-stderr (DEVNULL) policy
is truthy and the drain stage iterates a None pipe handle. This refutes
the claim that exec_cmd raises only when the process cannot be spawned
or when writing the supplied input fails. -/
theorem c2_counterexample :
    exec_cmd ["ls"] none (some PIPE) (some DEVNULL) false true trueChild 20 =
      Except.error PyErr.typeError := by decide

/-- C2 (amended): for launch configurations whose capture policies are
PIPE or inherit (None; with merge additionally allowed for stderr) and a
child whose delivered output decodes as UTF-8, exec_cmd raises only when
the process cannot be spawned or when writing the supplied input fails;
the exit status of the child is never raised and is recorded unchanged
in retcode. -/
theorem c2_contract_restricted (args : List String) (input : Option (List Nat))
    (stdout stderr : Option Int) (ignore_retcode decode_output : Bool)
    (child : ChildBehavior) (lvl : Nat)
    (hspawn : child.spawnOk = true)
    (hinput : input.isSome = true → child.stdinOk = true)
    (hso : stdout = some PIPE ∨ stdout = none)
    (hse : stderr = some PIPE ∨ stderr = none ∨ stderr = some STDOUT)
    (hv1 : linesValid child.stdoutBytes = true)
    (hv2 : linesValid child.stderrBytes = true)
    (hv3 : utf8Valid child.stdoutBytes = true)
    (hv4 : utf8Valid child.stderrBytes = true) :
    retcodeOf (exec_cmd args input stdout stderr ignore_retcode decode_output child lvl) =
      some child.exitcode := by
  have hns : ¬ child.spawnOk = false := by simp [hspawn]
  have hni : ¬ (input.isSome = true ∧ child.stdinOk = false) := by
    rintro ⟨a, b⟩
    rw [hinput a] at b
    cases b
  unfold exec_cmd
  rw [if_neg hns, if_neg hni]
  rcases hso with hso | hso <;> subst hso <;> rcases hse with hse | hse | hse <;> subst hse
  · rw [execDrainStdout_pipe _ _ _ hv1]
    dsimp only [ProcData.init]
    rw [execDrainStderr_pipe _ _ hv2]
    dsimp only [ProcData.init]
    obtain ⟨evs3, hds⟩ := display_returns args ignore_retcode
      { decode_output := decode_output, _stdout := child.stdoutBytes,
        _stderr := child.stderrBytes, retcode := child.exitcode } lvl hv3 hv4
    rw [hds]
    rfl
  · rw [execDrainStdout_pipe _ _ _ hv1]
    dsimp only [ProcData.init]
    rw [execDrainStderr_none]
    dsimp only [ProcData.init]
    obtain ⟨evs3, hds⟩ := display_returns args ignore_retcode
      { decode_output := decode_output, _stdout := child.stdoutBytes,
        _stderr := [], retcode := child.exitcode } lvl hv3 rfl
    rw [hds]
    rfl
  · rw [execDrainStdout_pipe _ _ _ hv1]
    dsimp only [ProcData.init]
    rw [execDrainStderr_merged]
    dsimp only [ProcData.init]
    obtain ⟨evs3, hds⟩ := display_returns args ignore_retcode
      { decode_output := decode_output, _stdout := child.stdoutBytes,
        _stderr := [], retcode := child.exitcode } lvl hv3 rfl
    rw [hds]
    rfl
  · rw [execDrainStdout_none]
    dsimp only [ProcData.init]
    rw [execDrainStderr_pipe _ _ hv2]
    dsimp only [ProcData.init]
    obtain ⟨evs3, hds⟩ := display_returns args ignore_retcode
      { decode_output := decode_output, _stdout := [],
        _stderr := child.stderrBytes, retcode := child.exitcode } lvl rfl hv4
    rw [hds]
    rfl
  · rw [execDrainStdout_none]
    dsimp only [ProcData.init]
    rw [execDrainStderr_none]
    dsimp only [ProcData.init]
    obtain ⟨evs3, hds⟩ := display_returns args ignore_retcode
      { decode_output := decode_output, _stdout := [],
        _stderr := [], retcode := child.exitcode } lvl rfl rfl
    rw [hds]
    rfl
  · rw [execDrainStdout_none]
    dsimp only [ProcData.init]
    rw [execDrainStderr_merged]
    dsimp only [ProcData.init]
    obtain ⟨evs3, hds⟩ := display_returns args ignore_retcode
      { decode_output := decode_output, _stdout := [],
        _stderr := [], retcode := child.exitcode } lvl rfl rfl
    rw [hds]
    rfl

/-- C2 witness: a child exiting with status 7 under the default
PIPE/PIPE policies yields retcode 7 without an exception. -/
theorem c2_witness :
    retcodeOf (exec_cmd ["sh"] none (some PIPE) (some PIPE) false true exit7Child 20) =
      some 7 :=
  c2_contract_restricted ["sh"] none (some PIPE) (some PIPE) false true exit7Child 20
    rfl (fun _ => rfl) (Or.inl rfl) (Or.inl rfl) rfl rfl rfl rfl

/-- C10: a discard (DEVNULL) capture policy on stdout, or on stderr
(with the stdout side succeeding), makes exec_cmd enter the drain branch
with a None pipe handle and raise TypeError instead of returning a
ProcData. -/
theorem c10_devnull_typeerror (args : List String) (input : Option (List Nat))
    (stdout stderr : Option Int) (ignore_retcode decode_output : Bool)
    (child : ChildBehavior) (lvl : Nat)
    (hspawn : child.spawnOk = true)
    (hinput : input.isSome = true → child.stdinOk = true)
    (hcase : stdout = some DEVNULL ∨
      (stderr = some DEVNULL ∧
        (stdout = none ∨ (stdout = some PIPE ∧ linesValid child.stdoutBytes = true)))) :
    exec_cmd args input stdout stderr ignore_retcode decode_output child lvl =
      Except.error PyErr.typeError := by
  have hns : ¬ child.spawnOk = false := by simp [hspawn]
  have hni : ¬ (input.isSome = true ∧ child.stdinOk = false) := by
    rintro ⟨a, b⟩
    rw [hinput a] at b
    cases b
  unfold exec_cmd
  rw [if_neg hns, if_neg hni]
  rcases hcase with hso | ⟨hse, hrest⟩
  · subst hso
    rw [execDrainStdout_devnull]
  · subst hse
    rcases hrest with hso | ⟨hso, hv⟩
    · subst hso
      rw [execDrainStdout_none]
      dsimp only
      rw [execDrainStderr_devnull]
    · subst hso
      rw [execDrainStdout_pipe _ _ _ hv]
      dsimp only
      rw [execDrainStderr_devnull]

/-- C10 witness: stdout discarded via DEVNULL raises TypeError. -/
theorem c10_witness :
    exec_cmd ["cat"] none (some DEVNULL) (some PIPE) false true trueChild 20 =
      Except.error PyErr.typeError :=
  c10_devnull_typeerror ["cat"] none (some DEVNULL) (some PIPE) false true trueChild 20
    rfl (fun _ => rfl) (Or.inl rfl)

/-- C4: the blocking drain and the suspend-capable drain are NOT
byte-identical on any stream: the async form never returns a buffer at
all. On the empty stream the blocking drain returns an empty buffer
while the async drain raises UnboundLocalError (its accumulator is
declared with a bare type hint and never assigned), and on the stream
b"hi\134n" the blocking drain returns the bytes verbatim while the async
drain again raises UnboundLocalError at the first += on the unassigned
accumulator. -/
theorem c4_async_drain_never_returns :
    _iterate_proc_output_async (some []) ProcStreamClassifier.STDOUT =
      Except.error PyErr.unboundLocalError ∧
    _iterate_proc_output (some []) ProcStreamClassifier.STDOUT = Except.ok ([], []) ∧
    _iterate_proc_output_async (some [104, 105, 10]) ProcStreamClassifier.STDOUT =
      Except.error PyErr.unboundLocalError ∧
    _iterate_proc_output (some [104, 105, 10]) ProcStreamClassifier.STDOUT =
      Except.ok ([LogEvent.outputLine ProcStreamClassifier.STDOUT [104, 105]],
        [104, 105, 10]) := by
  decide

/-- C6 counterexample: the stream consisting of the single byte 0xFF
(not decodable) makes the blocking drain raise UnicodeDecodeError while
logging, instead of returning the concatenation of the consumed
bytes. -/
theorem c6_counterexample :
    _iterate_proc_output (some [255]) ProcStreamClassifier.STDOUT =
      Except.error PyErr.unicodeDecodeError ∧
    accumOf (_iterate_proc_output (some [255]) ProcStreamClassifier.STDOUT) ≠
      some [255] := by
  decide

/-- C6 (amended): for every byte stream whose lines decode as UTF-8, the
Line Drain returns exactly the concatenation of all bytes consumed
(newlines retained, an unterminated final fragment included); the empty
stream yields an empty buffer without an error. -/
theorem c6_drain_accumulates_all_bytes (bs : List Nat) (sc : ProcStreamClassifier)
    (h : linesValid bs = true) :
    accumOf (_iterate_proc_output (some bs) sc) = some bs := by
  have h2 : (splitLines bs).all utf8Valid = true := h
  rw [iterate_ok bs sc h2]
  rfl

/-- C6 witness: a two-line stream with an unterminated final fragment is
accumulated verbatim. -/
theorem c6_witness :
    accumOf (_iterate_proc_output (some [97, 10, 98]) ProcStreamClassifier.STDOUT) =
      some [97, 10, 98] :=
  c6_drain_accumulates_all_bytes [97, 10, 98] ProcStreamClassifier.STDOUT (by decide)

/-- C7 counterexample: for the drained line b" a\134n" the logged
representation is [97] (leading space removed as well), not the
trailing-only-stripped [32, 97] the claim requires; the accumulated
buffer does keep the bytes verbatim. -/
theorem c7_counterexample :
    _iterate_proc_output (some [32, 97, 10]) ProcStreamClassifier.STDOUT =
      Except.ok ([LogEvent.outputLine ProcStreamClassifier.STDOUT [97]], [32, 97, 10]) ∧
    stripTrailingOnly [32, 97, 10] = [32, 97] ∧
    pyStrip [32, 97, 10] ≠ stripTrailingOnly [32, 97, 10] := by
  decide

/-- C7 (amended): for every drained line, whitespace is stripped from
BOTH ends (str.strip) for the representation passed to the logger, while
the bytes appended to the accumulated buffer are kept verbatim. -/
theorem c7_logged_line_stripped_both_ends (bs : List Nat) (sc : ProcStreamClassifier)
    (h : linesValid bs = true) :
    _iterate_proc_output (some bs) sc =
      Except.ok ((splitLines bs).map (loggedEvent sc), bs) :=
  iterate_ok bs sc h

/-- C7 witness: the line b" a\134n" is logged stripped on both ends and
accumulated verbatim. -/
theorem c7_witness :
    _iterate_proc_output (some [32, 97, 10]) ProcStreamClassifier.STDERR =
      Except.ok ((splitLines [32, 97, 10]).map (loggedEvent ProcStreamClassifier.STDERR),
        [32, 97, 10]) :=
  c7_logged_line_stripped_both_ends [32, 97, 10] ProcStreamClassifier.STDERR (by decide)

/-- C5: exec_cmd_async does NOT satisfy the external contract of
exec_cmd: for every launch configuration it raises (the coroutine
returned by asyncio.create_subprocess_exec is never awaited, so every
attribute access on it fails) and therefore never returns a ProcData,
while exec_cmd returns a ProcData with the recorded exit status for the
same child behaviour (shown on the trivial child). -/
theorem c5_async_launcher_never_returns (args : List String) (input : Option (List Nat))
    (stdout stderr : Option Int) (ignore_retcode decode_output : Bool)
    (child : ChildBehavior) (lvl : Nat) :
    retcodeOf (exec_cmd_async args input stdout stderr ignore_retcode decode_output child lvl)
      = none ∧
    retcodeOf (exec_cmd ["true"] none (some PIPE) (some PIPE) false true trueChild 20) =
      some 0 := by
  constructor
  · unfold exec_cmd_async
    split
    · rfl
    · split
      · rfl
      · split
        · rfl
        · split
          · rfl
          · rfl
  · decide

/-- C8: the Result Reporter emits no error-level event when
ignore_retcode is set or the exit status is zero, and otherwise emits
exactly one error-level event naming the command and the exit
status. -/
theorem c8_reporter_error_events (args : List String) (ignore_retcode : Bool) (pd : ProcData)
    (lvl : Nat)
    (hd : pd.decode_output = true → utf8Valid pd._stdout = true ∧ utf8Valid pd._stderr = true) :
    c8Holds args ignore_retcode pd lvl = true := by
  unfold c8Holds
  rw [display_ok args ignore_retcode pd lvl hd]
  dsimp only
  by_cases hig : ignore_retcode = false ∧ pd.retcode ≠ 0
  · rw [if_pos hig]
    have hc : ¬ (ignore_retcode = true ∨ pd.retcode = 0) := by
      rintro (h | h)
      · rw [h] at hig
        exact absurd hig.1 (by decide)
      · exact hig.2 h
    rw [if_neg hc]
    by_cases hlvl : 10 < lvl
    · rw [if_pos hlvl]
      simp only [List.countP_append, List.countP_cons, List.countP_nil]
      have h1 : isRetcodeErrorFor args pd.retcode (LogEvent.retcodeError args pd.retcode)
          = true := by
        simp [isRetcodeErrorFor]
      rw [h1]
      have h2 : (if pd._stdout.isEmpty then ([] : List LogEvent)
          else [LogEvent.stdoutDump pd._stdout]).countP (isRetcodeErrorFor args pd.retcode)
          = 0 := by
        split <;> simp [isRetcodeErrorFor]
      have h3 : (if pd._stderr.isEmpty then ([] : List LogEvent)
          else [LogEvent.stderrDump pd._stderr]).countP (isRetcodeErrorFor args pd.retcode)
          = 0 := by
        split <;> simp [isRetcodeErrorFor]
      rw [h2, h3]
      decide
    · rw [if_neg hlvl]
      simp [isRetcodeErrorFor]
  · rw [if_neg hig]
    have hc : ignore_retcode = true ∨ pd.retcode = 0 := by
      by_cases ha : ignore_retcode = true
      · exact Or.inl ha
      · right
        have hf : ignore_retcode = false := by
          cases hb : ignore_retcode
          · rfl
          · exact absurd hb ha
        by_contra hr
        exact hig ⟨hf, hr⟩
    rw [if_pos hc]
    rfl

/-- C8 witness: a non-zero exit with reporting enabled yields exactly
one command-naming error event. -/
theorem c8_witness :
    c8Holds ["false"] false (ProcData.mk true [104] [] 3) 20 = true :=
  c8_reporter_error_events ["false"] false (ProcData.mk true [104] [] 3) 20
    (fun _ => by decide)

/-- C9 counterexample: reporting a non-zero exit at INFO verbosity
(coarser than DEBUG) with an empty stdout buffer emits no
aggregated-stdout event at all, while the claim requires the full
aggregated stdout to be logged unconditionally in that situation. -/
theorem c9_counterexample :
    _display_proc_result ["false"] false (ProcData.mk true [] [] 1) 20 =
      Except.ok [LogEvent.retcodeError ["false"] 1] ∧
    ([LogEvent.retcodeError ["false"] 1].countP isDumpEvent) = 0 := by
  decide

/-- C9 (amended): when the reporter reports a non-zero exit and the
verbosity is coarser than DEBUG, it logs the full aggregated stdout IF
NON-EMPTY and the full aggregated stderr IF NON-EMPTY, as single events
each; at DEBUG-or-finer verbosity it logs neither buffer. -/
theorem c9_reporter_dumps (args : List String) (pd : ProcData) (lvl : Nat)
    (hr : pd.retcode ≠ 0)
    (hd : pd.decode_output = true → utf8Valid pd._stdout = true ∧ utf8Valid pd._stderr = true) :
    c9Holds args pd lvl = true := by
  unfold c9Holds
  rw [display_ok args false pd lvl hd]
  dsimp only
  have hcond : (false = false ∧ pd.retcode ≠ 0) := ⟨rfl, hr⟩
  rw [if_pos hcond]
  by_cases hlvl : 10 < lvl
  · rw [if_pos hlvl, if_pos hlvl]
    simp only [List.countP_append, List.countP_cons, List.countP_nil]
    cases hso : pd._stdout.isEmpty <;> cases hse : pd._stderr.isEmpty <;>
      simp [isStdoutDumpOf, isStderrDumpOf, hso, hse]
  · rw [if_neg hlvl, if_neg hlvl]
    rfl

/-- C9 witness: non-empty buffers at INFO verbosity are each dumped
exactly once. -/
theorem c9_witness :
    c9Holds ["x"] (ProcData.mk true [104] [105] 2) 20 = true :=
  c9_reporter_dumps ["x"] (ProcData.mk true [104] [105] 2) 20 (by decide) (fun _ => by decide)

/-- C1 counterexample: a child that writes three bytes to each stream
against two-byte pipe buffers drives the sequential-drain launcher into
a state where neither side can make progress (the child is blocked
writing stderr into a full pipe while the launcher is blocked reading
stdout that will never see end-of-stream), and the state never changes
again: the launch does not complete, refuting the claim that the two
drains run concurrently and such a child completes without deadlock. -/
theorem c1_counterexample :
    deadlocked (simStep^[25] c1Init) = true ∧
    simStep (simStep^[25] c1Init) = simStep^[25] c1Init := by
  decide

/-- C1 (amended): in exec_cmd the two Line Drains run sequentially, not
concurrently: the stderr pipe is only ever read after the child has
finished all writes and closed its streams and the stdout pipe has been
fully drained (invariant over every reachable state of the pipe-level
model), and the three-bytes-each child deadlocks rather than
completing. -/
theorem c1_sequential_drain (n : Nat) :
    simSequentialInv (simStep^[n] c1Init) = true ∧
    deadlocked (simStep^[25] c1Init) = true := by
  constructor
  · induction n with
    | zero => decide
    | succ n ih =>
      rw [Function.iterate_succ_apply']
      exact simSequentialInv_step _ ih
  · decide

